import Mathlib

/-!
# Verification of the comment-rader batch classification pipeline

A shallow embedding, in Lean 4, of the stance-classification pipeline of the
comment-rader repository: the engine batch-result mapping of the Groq, Gemini
and OpenAI engines, the like-count score weighting, the thread-aware stance
synthesis (`stance-logic`), the JSON truncation repair of the OpenAI engine
(`repairTruncatedJSON`), the quota-failure fallback of the Groq engine, and
the `/api/analyze` route's batch partitioning, tier assignment and
result merging.

Modelling conventions:
* JavaScript numbers are modelled as `ℚ`.  All arithmetic the verified claims
  depend on (comparisons with `-1`/`1`, multiplication by `0`/`±1`, division
  by `7`) is exact in IEEE-754 binary64 as well, so no rounding is modelled.
* `Math.log10` is irrational in general, so every function that uses it takes
  the evaluation `log10 : ℕ → ℚ` of `Math.log10 (likeCount + 1)` as an
  explicit parameter.  The only concrete value any proof relies on is
  `log10 1 = 0`, which `Math.log10` also returns exactly.
* JavaScript `Map` built by `forEach(set)` resolves a key to the *last* entry
  with that key; `lookupLast` below models `Map.get`.
* Optional (possibly-`undefined`) fields are `Option`; JavaScript truthiness
  on strings (`""` and `undefined` are falsy) is modelled explicitly where
  the source relies on it.
* Wall-clock fields (`processingTimeMs`, timestamps) are not modelled.
-/

namespace CommentRadar

/-- `StanceLabel` of `types.ts`: `"Support" | "Oppose" | "Neutral" | "Unknown"`. -/
inductive StanceLabel where
  | support
  | oppose
  | neutral
  | unknown
  deriving DecidableEq, Repr

/-- The `stance_direction` strings `"support" | "oppose" | "neutral" | "unknown"`. -/
inductive Direction where
  | support
  | oppose
  | neutral
  | unknown
  deriving DecidableEq, Repr

/-- Rendering of a possibly-`undefined` `StanceLabel` inside a JS template
literal (`undefined` prints as `"undefined"`). -/
def showOptLabel : Option StanceLabel → String
  | none => "undefined"
  | some .support => "Support"
  | some .oppose => "Oppose"
  | some .neutral => "Neutral"
  | some .unknown => "Unknown"

/-- Rendering of a possibly-`undefined` direction inside a JS template literal. -/
def showOptDirection : Option Direction → String
  | none => "undefined"
  | some .support => "support"
  | some .oppose => "oppose"
  | some .neutral => "neutral"
  | some .unknown => "unknown"

/-- The fields of `YouTubeComment` (`types.ts`) read by the embedded
operations: `id`, `likeCount` and the optional `parentId`.  (The remaining
fields — author, text, timestamps — are only copied through and omitted.) -/
structure Comment where
  id : String
  likeCount : ℕ
  parentId : Option String
  deriving DecidableEq, Repr

/-- `SentimentAnalysis` of `types.ts`, restricted to the fields the embedded
engine code reads or writes.  `replyRelation` is a `String` because the
engines store `(r.reply_relation_to_parent || r.replyRelation) as any`, an
arbitrary provider-supplied string, and `stance-logic` compares it against
string literals. -/
structure SentimentAnalysis where
  commentId : String
  score : ℚ
  weightedScore : ℚ
  emotions : List String
  isSarcasm : Bool
  reason : Option String
  label : Option StanceLabel
  stanceDirection : Option Direction
  stanceIntensity : Option ℚ
  confidence : Option ℚ
  axisEvidence : Option String
  replyRelation : Option String
  speechAct : Option String
  deriving DecidableEq, Repr

/-- `Map.get` for a JS `Map` built by `list.forEach(x => map.set(key x, x))`:
the last entry with the key wins. -/
def lookupLast {α : Type} (key : α → String) (l : List α) (k : String) : Option α :=
  l.reverse.find? (fun a => key a = k)

/-- `Math.max(-1, Math.min(1, s))`, the clamp used by every engine
(`clampScore` in the Groq/Gemini engines, inlined in the OpenAI engine). -/
def clampScore (s : ℚ) : ℚ :=
  max (-1) (min 1 s)

/-- `GroqEngine.calculateWeightedScore` (identical in `GeminiEngine` and
`MockEngine`): `weight = 1 + log10(likeCount+1)`, normalized by `/7`, then
clamped.  There is no special case for `likeCount = 0`. -/
def groqCalculateWeightedScore (log10 : ℕ → ℚ) (score : ℚ) (likeCount : ℕ) : ℚ :=
  clampScore (score * (1 + log10 (likeCount + 1)) / 7)

/-- `OpenAIEngine.calculateWeightedScore` (identical in `AnalysisService`):
returns the score unchanged when `likeCount = 0`, otherwise applies
`weight = 1 + log10(likeCount+1) * 0.2` and clamps. -/
def openAICalculateWeightedScore (log10 : ℕ → ℚ) (score : ℚ) (likeCount : ℕ) : ℚ :=
  if likeCount = 0 then score
  else clampScore (score * (1 + log10 (likeCount + 1) * (2 / 10)))

theorem clampScore_mem (s : ℚ) : -1 ≤ clampScore s ∧ clampScore s ≤ 1 := by
  unfold clampScore
  constructor
  · exact le_max_left _ _
  · exact max_le (by norm_num) (min_le_left _ _)

/-- C3, counterexample.  The claim quantifies over *every* engine's weighting
function; `GroqEngine.calculateWeightedScore` (the code cited by the claim,
shared by the Gemini and Mock engines) divides by 7 with no zero-likes early
return.  The `log10` argument `fun _ => 0` agrees with `Math.log10` at the
only point evaluated here, `likeCount + 1 = 1`, where `Math.log10 1 = 0`
exactly.  With `rawScore = 7/10` and `likeCount = 0` the weighted score is
`1/10`, not `7/10`. -/
theorem zero_likes_identity_counterexample :
    groqCalculateWeightedScore (fun _ => 0) (7 / 10) 0 = 1 / 10 ∧
      (1 / 10 : ℚ) ≠ 7 / 10 := by
  constructor
  · unfold groqCalculateWeightedScore clampScore
    norm_num
  · norm_num

/-- C3, amended.  `likeCount = 0 ⇒ weightedScore = rawScore` holds for the
OpenAI-style weighting (`OpenAIEngine.calculateWeightedScore` and
`AnalysisService.calculateWeightedScore`, which early-return the raw score),
but the Groq/Gemini/Mock variant attenuates: at `likeCount = 0` it returns
`clamp(rawScore / 7)` instead of `rawScore`. -/
theorem zero_likes_identity_amended (log10 : ℕ → ℚ) (h1 : log10 1 = 0) (s : ℚ) :
    openAICalculateWeightedScore log10 s 0 = s ∧
      groqCalculateWeightedScore log10 s 0 = clampScore (s / 7) := by
  constructor
  · unfold openAICalculateWeightedScore
    simp
  · unfold groqCalculateWeightedScore
    rw [h1]
    norm_num

/-- Witness for `zero_likes_identity_amended` at `log10 = fun _ => 0`,
`s = 3/5`. -/
theorem zero_likes_identity_amended_witness :
    openAICalculateWeightedScore (fun _ => 0) (3 / 5) 0 = 3 / 5 ∧
      groqCalculateWeightedScore (fun _ => 0) (3 / 5) 0 = clampScore (3 / 5 / 7) :=
  zero_likes_identity_amended (fun _ => 0) rfl (3 / 5)

/-! ## Stance synthesis (`stance-logic.ts`) -/

/-- JS truthiness of an optional string: `undefined` and `""` are falsy. -/
def strTruthy : Option String → Bool
  | none => false
  | some s => s ≠ ""

/-- JS `a || b` on two optional strings (used for
`r.reply_relation_to_parent || r.replyRelation`): the first operand wins
when truthy, otherwise the second is taken as-is. -/
def jsOrStr (a b : Option String) : Option String :=
  if strTruthy a then a else b

/-- `synthesizeStance` of `stance-logic.ts`.  The reply relation is the raw
string stored on the analysis; unrecognized strings fall through to
`"Unknown"`. -/
def synthesizeStance (parentLabel : StanceLabel) (replyRelation : String) : StanceLabel :=
  if replyRelation = "unrelated" ∨ replyRelation = "clarify" ∨ replyRelation = "question" then
    .neutral
  else if replyRelation = "disagree" then
    match parentLabel with
    | .support => .oppose
    | .oppose => .support
    | .neutral => .neutral
    | .unknown => .unknown
  else if replyRelation = "agree" then
    parentLabel
  else
    .unknown

/-- `synthesizeBinaryStance` of `stance-logic.ts`: direction/intensity
synthesis.  `agree` copies the parent, `disagree` flips `support↔oppose`
keeping the parent's intensity, `unrelated`/`clarify`/`question` give
`(neutral, 0)`, anything else `(unknown, 0)`. -/
def synthesizeBinaryStance (parent : Direction × ℚ) (replyRelation : String) :
    Direction × ℚ :=
  if replyRelation = "unrelated" ∨ replyRelation = "clarify" ∨ replyRelation = "question" then
    (.neutral, 0)
  else if replyRelation = "agree" then
    parent
  else if replyRelation = "disagree" then
    let newDir : Direction :=
      match parent.1 with
      | .support => .oppose
      | .oppose => .support
      | d => d
    (newDir, parent.2)
  else
    (.unknown, 0)

/-- The direction multiplier of `applyStanceSynthesis`:
`finalDirection === "support" ? 1 : finalDirection === "oppose" ? -1 : 0`
(`undefined` also maps to 0). -/
def dirMultiplier : Option Direction → ℚ
  | some .support => 1
  | some .oppose => -1
  | _ => 0

/-- The guard chain of the `analyses.map` body in `applyStanceSynthesis`.
Mirrors the source's early returns: the comment of the analysis must be
found, its `parentId` must be truthy, the parent's analysis must be found,
and the reply relation must be truthy; otherwise the analysis is returned
unchanged (`none` here).  On success, returns the parent analysis and the
relation string. -/
def synthResolve (comments : List Comment) (analyses : List SentimentAnalysis)
    (analysis : SentimentAnalysis) : Option (SentimentAnalysis × String) :=
  match lookupLast Comment.id comments analysis.commentId with
  | none => none
  | some comment =>
    match comment.parentId with
    | none => none
    | some pid =>
      if pid = "" then none
      else
        match lookupLast SentimentAnalysis.commentId analyses pid with
        | none => none
        | some parentAnalysis =>
          match analysis.replyRelation with
          | none => none
          | some rel =>
            if rel = "" then none else some (parentAnalysis, rel)

/-- The synthesized-record computation of `applyStanceSynthesis`, applied
once the guards of `synthResolve` have passed: legacy label synthesis,
direction/intensity synthesis (skipped when the parent's direction is
`undefined` or `"unknown"`), the recomputed score
`finalIntensity * dirMultiplier`, the audit-trail `axisEvidence` and
`reason` strings. -/
def synthUpdate (parentAnalysis : SentimentAnalysis) (rel : String)
    (analysis : SentimentAnalysis) : SentimentAnalysis :=
  let synthesizedLabel := synthesizeStance (parentAnalysis.label.getD .unknown) rel
  let initial : Option Direction × ℚ :=
    (analysis.stanceDirection, analysis.stanceIntensity.getD 0)
  let final : Option Direction × ℚ :=
    match parentAnalysis.stanceDirection with
    | some pd =>
      if pd = .unknown then initial
      else
        let s := synthesizeBinaryStance (pd, parentAnalysis.stanceIntensity.getD 0) rel
        (some s.1, s.2)
    | none => initial
  let newScore := final.2 * dirMultiplier final.1
  let newEvidence : String :=
    match analysis.axisEvidence with
    | some s =>
      if s = "" then
        "Synthesized from parent (" ++ showOptLabel parentAnalysis.label ++ ") + " ++ rel
      else "[Thread Match] " ++ s
    | none =>
      "Synthesized from parent (" ++ showOptLabel parentAnalysis.label ++ ") + " ++ rel
  { analysis with
    label := some synthesizedLabel
    stanceDirection := final.1
    stanceIntensity := some final.2
    score := newScore
    axisEvidence := some newEvidence
    reason := some ("Thread-aware synthesis: Parent[" ++
      showOptDirection parentAnalysis.stanceDirection ++ "] + Relation[" ++
      rel ++ "] -> Result[" ++ showOptDirection final.1 ++ "]") }

/-- The per-element body of the `analyses.map` in `applyStanceSynthesis`. -/
def synthStep (comments : List Comment) (analyses : List SentimentAnalysis)
    (analysis : SentimentAnalysis) : SentimentAnalysis :=
  match synthResolve comments analyses analysis with
  | none => analysis
  | some (parentAnalysis, rel) => synthUpdate parentAnalysis rel analysis

/-- `applyStanceSynthesis` of `stance-logic.ts`: map `synthStep` over the
analyses, with the lookup maps built once from the input lists. -/
def applyStanceSynthesis (analyses : List SentimentAnalysis)
    (comments : List Comment) : List SentimentAnalysis :=
  analyses.map (synthStep comments analyses)

/-- `sortCommentsByThreadOrder` of `stance-logic.ts`: top-level comments
(falsy `parentId`) first, then replies, both in input order. -/
def sortCommentsByThreadOrder (comments : List Comment) : List Comment :=
  comments.filter (fun c => !strTruthy c.parentId) ++
    comments.filter (fun c => strTruthy c.parentId)

theorem lookupLast_mem {α : Type} {key : α → String} {l : List α} {k : String} {x : α}
    (h : lookupLast key l k = some x) : x ∈ l := by
  have := List.mem_of_find?_eq_some h
  exact List.mem_reverse.mp this

theorem lookupLast_key {α : Type} {key : α → String} {l : List α} {k : String} {x : α}
    (h : lookupLast key l k = some x) : key x = k := by
  have := List.find?_some h
  simpa using this

theorem synthUpdate_commentId (pa : SentimentAnalysis) (rel : String)
    (a : SentimentAnalysis) : (synthUpdate pa rel a).commentId = a.commentId := rfl

theorem synthUpdate_replyRelation (pa : SentimentAnalysis) (rel : String)
    (a : SentimentAnalysis) : (synthUpdate pa rel a).replyRelation = a.replyRelation := rfl

theorem synthStep_commentId (comments : List Comment)
    (analyses : List SentimentAnalysis) (a : SentimentAnalysis) :
    (synthStep comments analyses a).commentId = a.commentId := by
  unfold synthStep
  cases synthResolve comments analyses a with
  | none => rfl
  | some pr => rfl

theorem synthStep_replyRelation (comments : List Comment)
    (analyses : List SentimentAnalysis) (a : SentimentAnalysis) :
    (synthStep comments analyses a).replyRelation = a.replyRelation := by
  unfold synthStep
  cases synthResolve comments analyses a with
  | none => rfl
  | some pr => rfl

theorem lookupLast_map_of_key (f : SentimentAnalysis → SentimentAnalysis)
    (hf : ∀ x, (f x).commentId = x.commentId) (l : List SentimentAnalysis)
    (k : String) :
    lookupLast SentimentAnalysis.commentId (l.map f) k =
      (lookupLast SentimentAnalysis.commentId l k).map f := by
  unfold lookupLast
  have hp : ((fun a => decide (a.commentId = k)) ∘ f) =
      fun a : SentimentAnalysis => decide (a.commentId = k) := by
    funext a
    simp [Function.comp, hf]
  rw [← List.map_reverse, List.find?_map, hp]

/-- `synthResolve` only reads `commentId` and `replyRelation` of the analysis
being processed. -/
theorem synthResolve_congr (comments : List Comment)
    (analyses : List SentimentAnalysis) {a a' : SentimentAnalysis}
    (h1 : a'.commentId = a.commentId) (h2 : a'.replyRelation = a.replyRelation) :
    synthResolve comments analyses a' = synthResolve comments analyses a := by
  unfold synthResolve
  rw [h1, h2]

/-- Resolving against a key-preserving image of the analysis list finds the
image of the parent. -/
theorem synthResolve_map (comments : List Comment)
    (analyses : List SentimentAnalysis) (f : SentimentAnalysis → SentimentAnalysis)
    (hf : ∀ x, (f x).commentId = x.commentId) (a : SentimentAnalysis) :
    synthResolve comments (analyses.map f) a =
      (synthResolve comments analyses a).map (fun pr => (f pr.1, pr.2)) := by
  unfold synthResolve
  cases hc : lookupLast Comment.id comments a.commentId with
  | none => simp
  | some comment =>
    simp only
    cases hp : comment.parentId with
    | none => simp
    | some pid =>
      simp only
      by_cases hpid : pid = ""
      · simp [hpid]
      · simp only [hpid, if_false]
        rw [lookupLast_map_of_key f hf]
        cases hpa : lookupLast SentimentAnalysis.commentId analyses pid with
        | none => simp
        | some pa =>
          simp only [Option.map_some']
          cases hr : a.replyRelation with
          | none => simp
          | some rel =>
            simp only
            by_cases hrel : rel = ""
            · simp [hrel]
            · simp [hrel]

theorem synthStep_of_resolve_none {comments : List Comment}
    {analyses : List SentimentAnalysis} {a : SentimentAnalysis}
    (h : synthResolve comments analyses a = none) :
    synthStep comments analyses a = a := by
  unfold synthStep
  rw [h]

theorem synthStep_of_resolve_some {comments : List Comment}
    {analyses : List SentimentAnalysis} {a pa : SentimentAnalysis} {rel : String}
    (h : synthResolve comments analyses a = some (pa, rel)) :
    synthStep comments analyses a = synthUpdate pa rel a := by
  unfold synthStep
  rw [h]

/-- Unpacking a successful guard chain of `synthResolve`. -/
theorem synthResolve_some_elim {comments : List Comment}
    {analyses : List SentimentAnalysis} {a pa : SentimentAnalysis} {rel : String}
    (h : synthResolve comments analyses a = some (pa, rel)) :
    ∃ comment pid, lookupLast Comment.id comments a.commentId = some comment ∧
      comment.parentId = some pid ∧ pid ≠ "" ∧
      lookupLast SentimentAnalysis.commentId analyses pid = some pa ∧
      a.replyRelation = some rel ∧ rel ≠ "" := by
  unfold synthResolve at h
  cases hc : lookupLast Comment.id comments a.commentId with
  | none => simp [hc] at h
  | some comment =>
    simp only [hc] at h
    cases hp : comment.parentId with
    | none => simp [hp] at h
    | some pid =>
      simp only [hp] at h
      by_cases hpid : pid = ""
      · simp [hpid] at h
      · simp only [hpid, if_false] at h
        cases hpa : lookupLast SentimentAnalysis.commentId analyses pid with
        | none => simp [hpa] at h
        | some pa' =>
          simp only [hpa] at h
          cases hr : a.replyRelation with
          | none => simp [hr] at h
          | some rel' =>
            simp only [hr] at h
            by_cases hrel : rel' = ""
            · simp [hrel] at h
            · simp only [hrel, if_false, Option.some.injEq, Prod.mk.injEq] at h
              obtain ⟨hpa2, hrel2⟩ := h
              subst hpa2
              subst hrel2
              exact ⟨comment, pid, rfl, hp, hpid, hpa, rfl, hrel⟩

/-- A default analysis record used to build concrete test fixtures. -/
def baseAnalysis (cid : String) : SentimentAnalysis where
  commentId := cid
  score := 0
  weightedScore := 0
  emotions := []
  isSarcasm := false
  reason := none
  label := none
  stanceDirection := none
  stanceIntensity := none
  confidence := none
  axisEvidence := none
  replyRelation := none
  speechAct := none

/-- Fixture: a top-level parent comment `p` and its reply `r`. -/
def parentComment : Comment := ⟨"p", 0, none⟩

/-- Fixture: the reply comment `r` with parent `p`. -/
def replyComment : Comment := ⟨"r", 0, some "p"⟩

/-- Fixture: the parent's pass-1 analysis, `oppose` with intensity `0.8`. -/
def parentOppose : SentimentAnalysis :=
  { baseAnalysis "p" with
    score := -(4 / 5)
    label := some .oppose
    stanceDirection := some .oppose
    stanceIntensity := some (4 / 5) }

/-- Fixture: the reply's pass-1 analysis, classified `support`/`0.2` in
isolation, with `replyRelation = "disagree"`. -/
def replyDisagree : SentimentAnalysis :=
  { baseAnalysis "r" with
    score := 1 / 5
    label := some .support
    stanceDirection := some .support
    stanceIntensity := some (1 / 5)
    axisEvidence := some "reply evidence"
    replyRelation := some "disagree" }

/-- Fixture: a parent whose pass-1 analysis has `stanceDirection = "unknown"`
with intensity `0.9`. -/
def parentUnknown : SentimentAnalysis :=
  { baseAnalysis "p" with
    label := some .unknown
    stanceDirection := some .unknown
    stanceIntensity := some (9 / 10) }

/-- C5, counterexample.  The transition table is *not* applied to every reply
whose parent result is present: `applyStanceSynthesis` skips the
direction/intensity synthesis when the parent's `stanceDirection` is
`undefined` or `"unknown"`.  Here the parent is present with direction
`unknown` and intensity `0.9`, the reply is `support/0.2` with relation
`"disagree"` — the claim requires the reply to become `unknown` inheriting
intensity `0.9`, but the program keeps the reply's own `support`/`0.2`
(score `0.2`). -/
theorem transition_table_counterexample :
    ((applyStanceSynthesis [parentUnknown, replyDisagree]
          [parentComment, replyComment]).map
        (fun a => (a.stanceDirection, a.stanceIntensity, a.score)) =
      [(some .unknown, some (9 / 10), 0),
        (some .support, some (1 / 5), 1 / 5)]) ∧
      Direction.support ≠ Direction.unknown ∧ (1 / 5 : ℚ) ≠ 9 / 10 := by
  refine ⟨?_, by decide, by norm_num⟩
  simp [applyStanceSynthesis, synthStep, synthResolve, synthUpdate, lookupLast,
    parentUnknown, replyDisagree, parentComment, replyComment, baseAnalysis,
    synthesizeBinaryStance, dirMultiplier]

/-- C5, amended.  For every reply the synthesizer actually rewrites (a
resolved parent analysis and a truthy relation, i.e. `synthResolve`
succeeds): (i) when the parent's `stanceDirection` is defined and not
`"unknown"`, the reply's direction and intensity are exactly
`synthesizeBinaryStance` of the parent's direction/intensity and the
relation, and `rawScore` is that intensity times the direction multiplier;
(ii) when the parent's direction is `undefined` or `"unknown"`, the reply
keeps its own pass-1 direction and intensity (score = own intensity × own
direction multiplier) instead of following the table; (iii) the table
itself: `oppose/0.8 + disagree → support/0.8`, `support/0.6 + agree →
support/0.6`, `unrelated`/`clarify`/`question → neutral/0`, and `disagree`
flips `support↔oppose` (`neutral→neutral`, `unknown→unknown`) inheriting
the parent's intensity; (iv) concretely, an `oppose/0.8` parent with a
`disagree` reply yields `support/0.8` with `rawScore = 0.8` through a full
`applyStanceSynthesis` run. -/
theorem transition_table_amended (comments : List Comment)
    (analyses : List SentimentAnalysis) (a pa : SentimentAnalysis) (rel : String)
    (hres : synthResolve comments analyses a = some (pa, rel)) :
    (∀ pd, pa.stanceDirection = some pd → pd ≠ Direction.unknown →
      (synthStep comments analyses a).stanceDirection =
          some (synthesizeBinaryStance (pd, pa.stanceIntensity.getD 0) rel).1 ∧
        (synthStep comments analyses a).stanceIntensity =
          some (synthesizeBinaryStance (pd, pa.stanceIntensity.getD 0) rel).2 ∧
        (synthStep comments analyses a).score =
          (synthesizeBinaryStance (pd, pa.stanceIntensity.getD 0) rel).2 *
            dirMultiplier
              (some (synthesizeBinaryStance (pd, pa.stanceIntensity.getD 0) rel).1)) ∧
      ((pa.stanceDirection = none ∨ pa.stanceDirection = some Direction.unknown) →
        (synthStep comments analyses a).stanceDirection = a.stanceDirection ∧
          (synthStep comments analyses a).stanceIntensity =
            some (a.stanceIntensity.getD 0) ∧
          (synthStep comments analyses a).score =
            a.stanceIntensity.getD 0 * dirMultiplier a.stanceDirection) ∧
      (synthesizeBinaryStance (.oppose, 4 / 5) "disagree" = (.support, 4 / 5)) ∧
      (synthesizeBinaryStance (.support, 3 / 5) "agree" = (.support, 3 / 5)) ∧
      (∀ p : Direction × ℚ,
        synthesizeBinaryStance p "unrelated" = (.neutral, 0) ∧
          synthesizeBinaryStance p "clarify" = (.neutral, 0) ∧
          synthesizeBinaryStance p "question" = (.neutral, 0)) ∧
      (∀ i : ℚ,
        synthesizeBinaryStance (.support, i) "disagree" = (.oppose, i) ∧
          synthesizeBinaryStance (.oppose, i) "disagree" = (.support, i) ∧
          synthesizeBinaryStance (.neutral, i) "disagree" = (.neutral, i) ∧
          synthesizeBinaryStance (.unknown, i) "disagree" = (.unknown, i)) ∧
      ((applyStanceSynthesis [parentOppose, replyDisagree]
            [parentComment, replyComment]).map
          (fun b => (b.stanceDirection, b.stanceIntensity, b.score)) =
        [(some .oppose, some (4 / 5), -(4 / 5)),
          (some .support, some (4 / 5), 4 / 5)]) := by
  refine ⟨fun pd hpd hne => ?_, fun hun => ?_, rfl, rfl,
    fun p => ⟨rfl, rfl, rfl⟩, fun i => ⟨rfl, rfl, rfl, rfl⟩, ?_⟩
  · rw [synthStep_of_resolve_some hres]
    unfold synthUpdate
    simp [hpd, hne]
  · rw [synthStep_of_resolve_some hres]
    unfold synthUpdate
    rcases hun with h | h <;> simp [h]
  · simp [applyStanceSynthesis, synthStep, synthResolve, synthUpdate, lookupLast,
      parentOppose, replyDisagree, parentComment, replyComment, baseAnalysis,
      synthesizeBinaryStance, dirMultiplier]

/-- Witness for `transition_table_amended`: the guard chain of the concrete
oppose-parent fixture resolves, and the `disagree` reply follows the
table — direction `support`, intensity `0.8`, score `0.8`. -/
theorem transition_table_amended_witness :
    (synthStep [parentComment, replyComment] [parentOppose, replyDisagree]
        replyDisagree).stanceDirection =
      some (synthesizeBinaryStance
        (Direction.oppose, parentOppose.stanceIntensity.getD 0) "disagree").1 ∧
      (synthStep [parentComment, replyComment] [parentOppose, replyDisagree]
          replyDisagree).stanceIntensity =
        some (synthesizeBinaryStance
          (Direction.oppose, parentOppose.stanceIntensity.getD 0) "disagree").2 ∧
      (synthStep [parentComment, replyComment] [parentOppose, replyDisagree]
          replyDisagree).score =
        (synthesizeBinaryStance
            (Direction.oppose, parentOppose.stanceIntensity.getD 0) "disagree").2 *
          dirMultiplier (some (synthesizeBinaryStance
            (Direction.oppose, parentOppose.stanceIntensity.getD 0) "disagree").1) :=
  (transition_table_amended [parentComment, replyComment]
      [parentOppose, replyDisagree] replyDisagree parentOppose "disagree" rfl).1
    Direction.oppose rfl (by decide)

/-- C10.  `applyStanceSynthesis` is a per-element map: the output has the
input's length, the `commentId` at every position is unchanged, and every
analysis whose guard chain fails (`synthResolve` returns `none`: the comment
is not a reply, or its parent has no analysis in the result set, or its
`replyRelation` is absent/empty) is returned with every field unchanged. -/
theorem stance_synthesis_frame (analyses : List SentimentAnalysis)
    (comments : List Comment) :
    (applyStanceSynthesis analyses comments).length = analyses.length ∧
      (∀ i (h : i < analyses.length)
          (h2 : i < (applyStanceSynthesis analyses comments).length),
        ((applyStanceSynthesis analyses comments).get ⟨i, h2⟩).commentId =
          (analyses.get ⟨i, h⟩).commentId) ∧
      (∀ i (h : i < analyses.length)
          (h2 : i < (applyStanceSynthesis analyses comments).length),
        synthResolve comments analyses (analyses.get ⟨i, h⟩) = none →
          (applyStanceSynthesis analyses comments).get ⟨i, h2⟩ =
            analyses.get ⟨i, h⟩) := by
  refine ⟨List.length_map _ _, fun i h h2 => ?_, fun i h h2 hres => ?_⟩
  · simp [applyStanceSynthesis, synthStep_commentId]
  · simp only [List.get_eq_getElem] at hres
    simp only [applyStanceSynthesis, List.get_eq_getElem, List.getElem_map]
    simp [synthStep, hres]

/-- Witness for `stance_synthesis_frame`: a single non-reply analysis is
returned unchanged. -/
theorem stance_synthesis_frame_witness :
    (applyStanceSynthesis [baseAnalysis "w"] []).get ⟨0, by simp [applyStanceSynthesis]⟩ =
      baseAnalysis "w" :=
  (stance_synthesis_frame [baseAnalysis "w"] []).2.2 0 (by simp)
    (by simp [applyStanceSynthesis]) rfl

/-- C4, counterexample.  Stance synthesis is not idempotent: the audit-trail
prefix `"[Thread Match] "` is prepended to `axisEvidence` on *every*
application, so a second run over the already-synthesized results (same
comment relations) changes the reply's `axisEvidence` again. -/
theorem synthesis_idempotence_counterexample :
    applyStanceSynthesis
        (applyStanceSynthesis [parentOppose, replyDisagree]
          [parentComment, replyComment])
        [parentComment, replyComment] ≠
      applyStanceSynthesis [parentOppose, replyDisagree]
        [parentComment, replyComment] := by
  intro h
  have h2 := congrArg (fun l => l.map SentimentAnalysis.axisEvidence) h
  simp [applyStanceSynthesis, synthStep, synthResolve, synthUpdate, lookupLast,
    parentOppose, replyDisagree, parentComment, replyComment, baseAnalysis] at h2

/-- Projection that forgets the `axisEvidence` audit string. -/
def stripEvidence (a : SentimentAnalysis) : SentimentAnalysis :=
  { a with axisEvidence := none }

/-- Applying the synthesized-record computation twice with the same parent
and relation changes nothing but `axisEvidence`. -/
theorem synthUpdate_twice (pa : SentimentAnalysis) (rel : String)
    (a : SentimentAnalysis) :
    stripEvidence (synthUpdate pa rel (synthUpdate pa rel a)) =
      stripEvidence (synthUpdate pa rel a) := by
  unfold synthUpdate stripEvidence
  cases hpd : pa.stanceDirection with
  | none => simp
  | some pd =>
    by_cases hu : pd = .unknown
    · simp [hu]
    · simp [hu]

/-- C4, amended.  For result sets over single-level threads (no comment's
parent is itself a reply — the shape of YouTube data, where replies have no
replies), a second application of the synthesizer reproduces the first
application on every field except `axisEvidence`, which gains one more
`"[Thread Match] "` prefix per run. -/
theorem synthesis_idempotent_modulo_evidence
    (analyses : List SentimentAnalysis) (comments : List Comment)
    (hsl : ∀ c ∈ comments, ∀ pid, c.parentId = some pid →
      ∀ pc, lookupLast Comment.id comments pid = some pc → pc.parentId = none) :
    (applyStanceSynthesis (applyStanceSynthesis analyses comments) comments).map
        stripEvidence =
      (applyStanceSynthesis analyses comments).map stripEvidence := by
  unfold applyStanceSynthesis
  simp only [List.map_map]
  apply List.map_congr_left
  intro a ha
  simp only [Function.comp]
  have hfid : ∀ x, (synthStep comments analyses x).commentId = x.commentId :=
    synthStep_commentId comments analyses
  cases hres : synthResolve comments analyses a with
  | none =>
    have hfa : synthStep comments analyses a = a := synthStep_of_resolve_none hres
    rw [hfa]
    have hres2 : synthResolve comments
        (analyses.map (synthStep comments analyses)) a = none := by
      rw [synthResolve_map comments analyses _ hfid, hres]
      rfl
    rw [synthStep_of_resolve_none hres2]
  | some pr =>
    obtain ⟨pa, rel⟩ := pr
    obtain ⟨comment, pid, hc, hp, hpid, hpa, hr, hrel⟩ := synthResolve_some_elim hres
    have hfa : synthStep comments analyses a = synthUpdate pa rel a :=
      synthStep_of_resolve_some hres
    -- The parent is itself left unchanged by the first pass: its comment, if
    -- present, is top-level by the single-level hypothesis.
    have hpaid : pa.commentId = pid := lookupLast_key hpa
    have hfpa : synthStep comments analyses pa = pa := by
      have hnone : synthResolve comments analyses pa = none := by
        unfold synthResolve
        rw [hpaid]
        cases hpc : lookupLast Comment.id comments pid with
        | none => rfl
        | some pc =>
          have hcm : comment ∈ comments := lookupLast_mem hc
          have := hsl comment hcm pid hp pc hpc
          simp [this]
      exact synthStep_of_resolve_none hnone
    -- Pass 2 resolves the same parent and relation for the updated reply.
    have hres2 : synthResolve comments
        (analyses.map (synthStep comments analyses)) (synthUpdate pa rel a) =
        some (synthStep comments analyses pa, rel) := by
      rw [synthResolve_congr comments _ (synthUpdate_commentId pa rel a)
        (synthUpdate_replyRelation pa rel a)]
      rw [synthResolve_map comments analyses _ hfid, hres]
      rfl
    rw [hfa]
    have hstep2 : synthStep comments (analyses.map (synthStep comments analyses))
        (synthUpdate pa rel a) = synthUpdate pa rel (synthUpdate pa rel a) := by
      rw [synthStep_of_resolve_some hres2, hfpa]
    rw [hstep2]
    exact synthUpdate_twice pa rel a

/-- Witness for `synthesis_idempotent_modulo_evidence` on the concrete
two-comment fixture (a single-level thread). -/
theorem synthesis_idempotent_modulo_evidence_witness :
    (applyStanceSynthesis
          (applyStanceSynthesis [parentOppose, replyDisagree]
            [parentComment, replyComment])
          [parentComment, replyComment]).map stripEvidence =
      (applyStanceSynthesis [parentOppose, replyDisagree]
          [parentComment, replyComment]).map stripEvidence :=
  synthesis_idempotent_modulo_evidence [parentOppose, replyDisagree]
    [parentComment, replyComment]
    (by
      intro c hc pid hp pc hpc
      simp only [parentComment, replyComment, List.mem_cons, List.mem_singleton,
        List.not_mem_nil, or_false] at hc
      rcases hc with rfl | rfl
      · simp at hp
      · simp only [Option.some.injEq] at hp
        subst hp
        simp [lookupLast, parentComment, replyComment] at hpc
        subst hpc
        rfl)

/-! ## Engine batch-result mapping -/

/-- `GroqResponse` (`groq-engine.ts`): one per-comment record parsed from the
provider's JSON reply.  `emotions` and `reason` may be absent at runtime
(the mapping guards them with `||` defaults), so they are `Option` here. -/
structure GroqResponse where
  commentId : String
  score : ℚ
  emotions : Option (List String)
  isSarcasm : Bool
  reason : Option String
  deriving DecidableEq, Repr

/-- `OpenAIResponse` (`openai-engine.ts`): the per-comment record the plain
`analyzeBatch` consumes without defaults. -/
structure OpenAIResponse where
  commentId : String
  score : ℚ
  emotions : List String
  isSarcasm : Bool
  reason : String
  deriving DecidableEq, Repr

/-- `AxisOpenAIResponse` (`openai-engine.ts`): the axis-mode per-comment
record; most fields are optional, and `score` is guarded with
`r.score !== undefined ? r.score : 0`. -/
structure AxisResponse where
  commentId : String
  score : Option ℚ
  emotions : Option (List String)
  isSarcasm : Bool
  reason : Option String
  label : Option StanceLabel
  stance_direction : Option Direction
  stance_intensity : Option ℚ
  confidence : Option ℚ
  axisEvidence : Option String
  reply_relation_to_parent : Option String
  replyRelation : Option String
  speech_act : Option String
  speechAct : Option String
  deriving DecidableEq, Repr

/-- JS `o || d` for a string with a default: `undefined` and `""` fall back. -/
def jsStrDefault (o : Option String) (d : String) : String :=
  match o with
  | some s => if s = "" then d else s
  | none => d

/-- The skipped-comment placeholder of `GroqEngine.analyzeBatch`, synthesized
for every requested comment absent from the provider's reply. -/
def groqSkippedPlaceholder (cid : String) : SentimentAnalysis where
  commentId := cid
  score := 0
  weightedScore := 0
  emotions := ["neutral"]
  isSarcasm := false
  reason := some "Groq skipped this comment in batch analysis"
  label := none
  stanceDirection := none
  stanceIntensity := none
  confidence := none
  axisEvidence := none
  replyRelation := none
  speechAct := none

/-- The `request.comments.map` of `GroqEngine.analyzeBatch` (identical in
`GeminiEngine`): each requested comment is matched against the parsed reply
by `commentId` (`parsedArray.find`); a missing entry synthesizes the skipped
placeholder; otherwise the raw score is clamped and like-count-weighted.
Lite mode keeps only the minimal fields. -/
def groqAnalyzeBatchMap (log10 : ℕ → ℚ) (isLite : Bool) (comments : List Comment)
    (parsedArray : List GroqResponse) : List SentimentAnalysis :=
  comments.map fun comment =>
    match parsedArray.find? (fun p => p.commentId = comment.id) with
    | none => groqSkippedPlaceholder comment.id
    | some item =>
      if isLite then
        { commentId := item.commentId
          score := clampScore item.score
          weightedScore := groqCalculateWeightedScore log10 item.score comment.likeCount
          emotions := ["neutral"]
          isSarcasm := false
          reason := none
          label := none
          stanceDirection := none
          stanceIntensity := none
          confidence := none
          axisEvidence := none
          replyRelation := none
          speechAct := none }
      else
        { commentId := item.commentId
          score := clampScore item.score
          weightedScore := groqCalculateWeightedScore log10 item.score comment.likeCount
          emotions := item.emotions.getD ["neutral"]
          isSarcasm := item.isSarcasm
          reason := some (jsStrDefault item.reason "No reason provided")
          label := none
          stanceDirection := none
          stanceIntensity := none
          confidence := none
          axisEvidence := none
          replyRelation := none
          speechAct := none }

/-- The `rawResults.map` of `OpenAIEngine.analyzeBatch`: the output is one
entry *per provider reply entry* (not per requested comment), the raw score
is stored unclamped, and only the like-count weighting is applied
(`comment?.likeCount || 0` when the id is unknown). -/
def openAIAnalyzeBatchMap (log10 : ℕ → ℚ) (isLite : Bool) (comments : List Comment)
    (rawResults : List OpenAIResponse) : List SentimentAnalysis :=
  rawResults.map fun r =>
    let likeCount :=
      match lookupLast Comment.id comments r.commentId with
      | some c => c.likeCount
      | none => 0
    let weightedScore := openAICalculateWeightedScore log10 r.score likeCount
    if isLite then
      { commentId := r.commentId
        score := r.score
        weightedScore := weightedScore
        emotions := []
        isSarcasm := false
        reason := none
        label := none
        stanceDirection := none
        stanceIntensity := none
        confidence := none
        axisEvidence := none
        replyRelation := none
        speechAct := none }
    else
      { commentId := r.commentId
        score := r.score
        weightedScore := weightedScore
        emotions := r.emotions
        isSarcasm := r.isSarcasm
        reason := some r.reason
        label := none
        stanceDirection := none
        stanceIntensity := none
        confidence := none
        axisEvidence := none
        replyRelation := none
        speechAct := none }

/-- The result mapping of `OpenAIEngine.analyzeAxisBatch`: thread-sort the
requested comments, map one analysis per *provider reply entry*
(`rawResults.map`, so absent comments are dropped), then, in full mode,
apply stance synthesis. -/
def openAIAxisBatchMap (log10 : ℕ → ℚ) (isLite : Bool) (comments : List Comment)
    (rawResults : List AxisResponse) : List SentimentAnalysis :=
  let sortedComments := sortCommentsByThreadOrder comments
  let analyses := rawResults.map fun r =>
    let likeCount :=
      match lookupLast Comment.id sortedComments r.commentId with
      | some c => c.likeCount
      | none => 0
    let finalScore := r.score.getD 0
    { commentId := r.commentId
      score := finalScore
      weightedScore := openAICalculateWeightedScore log10 finalScore likeCount
      emotions := r.emotions.getD []
      isSarcasm := r.isSarcasm
      reason := r.reason
      label := r.label
      stanceDirection := r.stance_direction
      stanceIntensity := r.stance_intensity
      confidence := r.confidence
      axisEvidence := r.axisEvidence
      replyRelation := jsOrStr r.reply_relation_to_parent r.replyRelation
      speechAct := jsOrStr r.speech_act r.speechAct }
  if isLite then analyses else applyStanceSynthesis analyses sortedComments

/-- An axis reply entry carrying only a `commentId` and a score. -/
def plainAxisResponse (cid : String) (s : ℚ) : AxisResponse where
  commentId := cid
  score := some s
  emotions := none
  isSarcasm := false
  reason := none
  label := none
  stance_direction := none
  stance_intensity := none
  confidence := none
  axisEvidence := none
  reply_relation_to_parent := none
  replyRelation := none
  speech_act := none
  speechAct := none

/-- C1, counterexample.  In `OpenAIEngine.analyzeAxisBatch` the analyses are
built by mapping over the *provider's* reply entries, so a requested comment
absent from the reply is dropped, not replaced by a skipped placeholder:
two requested comments with a one-entry reply produce one result. -/
theorem completeness_counterexample :
    (openAIAxisBatchMap (fun _ => 0) false [⟨"c1", 0, none⟩, ⟨"c2", 0, none⟩]
        [plainAxisResponse "c1" (1 / 2)]).length = 1 ∧
      ([(⟨"c1", 0, none⟩ : Comment), ⟨"c2", 0, none⟩].length = 2) := by
  constructor
  · simp [openAIAxisBatchMap, applyStanceSynthesis, sortCommentsByThreadOrder,
      strTruthy]
  · rfl

/-- C1, amended.  The per-batch completeness holds for the Groq and Gemini
engines: `GroqEngine.analyzeBatch` maps over the *requested* comments, so
the output has exactly one analysis per input comment, position by position
with the same `commentId`, and every comment absent from the provider's
reply becomes the synthesized skipped placeholder (neutral emotions, zero
scores).  (`OpenAIEngine` instead maps over the reply entries — see the
counterexample — and the route drops batches whose call threw.) -/
theorem completeness_amended (log10 : ℕ → ℚ) (isLite : Bool)
    (comments : List Comment) (parsedArray : List GroqResponse) :
    (groqAnalyzeBatchMap log10 isLite comments parsedArray).length =
        comments.length ∧
      (groqAnalyzeBatchMap log10 isLite comments parsedArray).map
          SentimentAnalysis.commentId = comments.map Comment.id ∧
      (∀ c ∈ comments,
        parsedArray.find? (fun p => p.commentId = c.id) = none →
          groqSkippedPlaceholder c.id ∈
            groqAnalyzeBatchMap log10 isLite comments parsedArray) := by
  refine ⟨List.length_map _ _, ?_, ?_⟩
  · unfold groqAnalyzeBatchMap
    rw [List.map_map]
    apply List.map_congr_left
    intro c hc
    simp only [Function.comp]
    cases hf : parsedArray.find? (fun p => p.commentId = c.id) with
    | none => rfl
    | some item =>
      have hid : item.commentId = c.id := by
        have := List.find?_some hf
        simpa using this
      cases isLite <;> simp [hid]
  · intro c hc hf
    unfold groqAnalyzeBatchMap
    refine List.mem_map.mpr ⟨c, hc, ?_⟩
    rw [hf]

/-- Witness for `completeness_amended`: one requested comment, empty reply —
the skipped placeholder is in the output. -/
theorem completeness_amended_witness :
    groqSkippedPlaceholder "c1" ∈
      groqAnalyzeBatchMap (fun _ => 0) false [⟨"c1", 7, none⟩] [] :=
  (completeness_amended (fun _ => 0) false [⟨"c1", 7, none⟩] []).2.2
    ⟨"c1", 7, none⟩ (by simp) rfl

/-- The intensity produced by `synthesizeBinaryStance` is either `0` or the
parent's intensity. -/
theorem synthesizeBinaryStance_intensity_bound (p : Direction × ℚ) (rel : String)
    (h0 : 0 ≤ p.2) (h1 : p.2 ≤ 1) :
    0 ≤ (synthesizeBinaryStance p rel).2 ∧ (synthesizeBinaryStance p rel).2 ≤ 1 := by
  unfold synthesizeBinaryStance
  split_ifs <;> simp_all

theorem dirMultiplier_mul_bound (i : ℚ) (h0 : 0 ≤ i) (h1 : i ≤ 1)
    (d : Option Direction) :
    -1 ≤ i * dirMultiplier d ∧ i * dirMultiplier d ≤ 1 := by
  rcases d with _ | d
  · simp [dirMultiplier]
  · cases d <;> simp [dirMultiplier] <;> constructor <;> linarith

/-- The score recomputed by the synthesized-record update is
`finalIntensity * dirMultiplier`, bounded when the involved intensities are
in `[0, 1]`. -/
theorem synthUpdate_score_bound (pa a : SentimentAnalysis) (rel : String)
    (hpa0 : 0 ≤ pa.stanceIntensity.getD 0) (hpa1 : pa.stanceIntensity.getD 0 ≤ 1)
    (ha0 : 0 ≤ a.stanceIntensity.getD 0) (ha1 : a.stanceIntensity.getD 0 ≤ 1) :
    -1 ≤ (synthUpdate pa rel a).score ∧ (synthUpdate pa rel a).score ≤ 1 := by
  unfold synthUpdate
  simp only
  cases hpd : pa.stanceDirection with
  | none =>
    exact dirMultiplier_mul_bound _ ha0 ha1 _
  | some pd =>
    by_cases hu : pd = .unknown
    · simp only [hu, if_pos rfl]
      exact dirMultiplier_mul_bound _ ha0 ha1 _
    · simp only [if_neg hu]
      obtain ⟨hi0, hi1⟩ :=
        synthesizeBinaryStance_intensity_bound (pd, pa.stanceIntensity.getD 0) rel
          hpa0 hpa1
      exact dirMultiplier_mul_bound _ hi0 hi1 _

/-- C6, counterexample.  `OpenAIEngine.analyzeBatch` stores the provider's
raw score without clamping, and at `likeCount = 0` its weighting
early-returns the raw score, also unclamped: a reply entry with score `5`
produces a result with `rawScore = weightedScore = 5 ∉ [-1, 1]`. -/
theorem score_bounds_counterexample :
    (openAIAnalyzeBatchMap (fun _ => 0) false [⟨"c1", 0, none⟩]
        [⟨"c1", 5, [], false, "r"⟩]).map (fun a => (a.score, a.weightedScore)) =
      [((5 : ℚ), (5 : ℚ))] ∧ ¬((5 : ℚ) ≤ 1) := by
  constructor
  · simp [openAIAnalyzeBatchMap, lookupLast, openAICalculateWeightedScore]
  · norm_num

/-- C6, amended.  The score bounds hold on the Groq/Gemini path: every
result of `GroqEngine.analyzeBatch`'s mapping has `rawScore` and
`weightedScore` in `[-1, 1]` (both go through `clampScore`), and a result
recomputed by the stance synthesizer stays in `[-1, 1]` provided every
input analysis has score and `stanceIntensity` in range (the synthesizer
multiplies an inherited intensity by `±1`/`0` without clamping, so a
provider-supplied intensity above `1` would escape the range — as would an
unclamped OpenAI raw score; see the counterexample). -/
theorem score_bounds_amended :
    (∀ (log10 : ℕ → ℚ) (isLite : Bool) (comments : List Comment)
        (parsedArray : List GroqResponse) (a : SentimentAnalysis),
      a ∈ groqAnalyzeBatchMap log10 isLite comments parsedArray →
        (-1 ≤ a.score ∧ a.score ≤ 1) ∧
          (-1 ≤ a.weightedScore ∧ a.weightedScore ≤ 1)) ∧
      (∀ (analyses : List SentimentAnalysis) (comments : List Comment)
          (b : SentimentAnalysis),
        (∀ a ∈ analyses, (-1 ≤ a.score ∧ a.score ≤ 1) ∧
          0 ≤ a.stanceIntensity.getD 0 ∧ a.stanceIntensity.getD 0 ≤ 1) →
          b ∈ applyStanceSynthesis analyses comments →
            -1 ≤ b.score ∧ b.score ≤ 1) := by
  constructor
  · intro log10 isLite comments parsedArray a ha
    unfold groqAnalyzeBatchMap at ha
    obtain ⟨c, _, rfl⟩ := List.mem_map.mp ha
    cases hf : parsedArray.find? (fun p => p.commentId = c.id) with
    | none =>
      simp only [hf]
      refine ⟨⟨?_, ?_⟩, ?_, ?_⟩ <;> norm_num [groqSkippedPlaceholder]
    | some item =>
      simp only [hf]
      cases isLite <;>
        simp only [if_pos, if_neg, Bool.false_eq_true, if_false, if_true] <;>
        exact ⟨clampScore_mem item.score,
          clampScore_mem (item.score * (1 + log10 (c.likeCount + 1)) / 7)⟩
  · intro analyses comments b hall hb
    unfold applyStanceSynthesis at hb
    obtain ⟨a, ha, rfl⟩ := List.mem_map.mp hb
    cases hres : synthResolve comments analyses a with
    | none =>
      rw [synthStep_of_resolve_none hres]
      exact (hall a ha).1
    | some pr =>
      obtain ⟨pa, rel⟩ := pr
      obtain ⟨comment, pid, _, _, _, hpa, _, _⟩ := synthResolve_some_elim hres
      have hpam : pa ∈ analyses := lookupLast_mem hpa
      rw [synthStep_of_resolve_some hres]
      exact synthUpdate_score_bound pa a rel (hall pa hpam).2.1 (hall pa hpam).2.2
        (hall a ha).2.1 (hall a ha).2.2

/-- Witness for `score_bounds_amended`: the skipped placeholder of a
one-comment Groq batch, and a non-reply analysis passed through the
synthesizer, are both within bounds. -/
theorem score_bounds_amended_witness :
    ((-1 ≤ (groqSkippedPlaceholder "c1").score ∧
        (groqSkippedPlaceholder "c1").score ≤ 1) ∧
      (-1 ≤ (groqSkippedPlaceholder "c1").weightedScore ∧
        (groqSkippedPlaceholder "c1").weightedScore ≤ 1)) ∧
      (-1 ≤ (baseAnalysis "w").score ∧ (baseAnalysis "w").score ≤ 1) := by
  constructor
  · have hmem : groqSkippedPlaceholder "c1" ∈
        groqAnalyzeBatchMap (fun _ => 0) false [⟨"c1", 0, none⟩] [] := by
      simp [groqAnalyzeBatchMap]
    exact score_bounds_amended.1 (fun _ => 0) false [⟨"c1", 0, none⟩] []
      (groqSkippedPlaceholder "c1") hmem
  · have hmem : baseAnalysis "w" ∈ applyStanceSynthesis [baseAnalysis "w"] [] := by
      simp [applyStanceSynthesis, synthStep, synthResolve, lookupLast]
    refine score_bounds_amended.2 [baseAnalysis "w"] [] (baseAnalysis "w") ?_ hmem
    intro a ha
    simp only [List.mem_singleton] at ha
    subst ha
    refine ⟨⟨?_, ?_⟩, ?_, ?_⟩ <;> norm_num [baseAnalysis]

/-! ## Ordering: matching by id vs. by position -/

/-- `find?` by `commentId` is permutation-invariant when the response carries
no duplicate `commentId`. -/
theorem find?_by_id_perm {l l' : List GroqResponse} (h : l.Perm l')
    (hnd : (l.map GroqResponse.commentId).Nodup) (k : String) :
    l.find? (fun p => p.commentId = k) = l'.find? (fun p => p.commentId = k) := by
  cases hf : l.find? (fun p => p.commentId = k) with
  | none =>
    rw [List.find?_eq_none] at hf
    symm
    rw [List.find?_eq_none]
    intro x hx
    exact hf x (h.mem_iff.mpr hx)
  | some x =>
    have hx : x ∈ l := List.mem_of_find?_eq_some hf
    have hpx : x.commentId = k := by
      have := List.find?_some hf
      simpa using this
    cases hf' : l'.find? (fun p => p.commentId = k) with
    | none =>
      rw [List.find?_eq_none] at hf'
      exact absurd (by simpa using hpx) (by simpa using hf' x (h.mem_iff.mp hx))
    | some y =>
      have hy : y ∈ l := h.mem_iff.mpr (List.mem_of_find?_eq_some hf')
      have hpy : y.commentId = k := by
        have := List.find?_some hf'
        simpa using this
      have hxy : x = y :=
        List.inj_on_of_nodup_map hnd hx hy (by rw [hpx, hpy])
      rw [hxy]

/-- C7, amended.  `GroqEngine.analyzeBatch` (and `GeminiEngine`) match each
requested comment to the reply entry by `commentId`, so any permutation of a
duplicate-free provider response yields exactly the same result list.
(`OpenAIEngine.analyzeBatch` instead emits analyses in the provider's reply
order and the route joins comment `j` with analysis `j` positionally, so
reordering mis-pairs — see the counterexample.) -/
theorem order_independence_amended (log10 : ℕ → ℚ) (isLite : Bool)
    (comments : List Comment) (parsedArray parsedArray' : List GroqResponse)
    (hperm : parsedArray.Perm parsedArray')
    (hnd : (parsedArray.map GroqResponse.commentId).Nodup) :
    groqAnalyzeBatchMap log10 isLite comments parsedArray =
      groqAnalyzeBatchMap log10 isLite comments parsedArray' := by
  unfold groqAnalyzeBatchMap
  apply List.map_congr_left
  intro c hc
  rw [find?_by_id_perm hperm hnd c.id]

/-- Witness for `order_independence_amended`: a two-entry response and its
reversal give the same batch result. -/
theorem order_independence_amended_witness :
    groqAnalyzeBatchMap (fun _ => 0) true [⟨"c1", 0, none⟩]
        [⟨"c1", 1, none, false, none⟩, ⟨"c2", 0, none, false, none⟩] =
      groqAnalyzeBatchMap (fun _ => 0) true [⟨"c1", 0, none⟩]
        [⟨"c2", 0, none, false, none⟩, ⟨"c1", 1, none, false, none⟩] :=
  order_independence_amended (fun _ => 0) true [⟨"c1", 0, none⟩]
    [⟨"c1", 1, none, false, none⟩, ⟨"c2", 0, none, false, none⟩]
    [⟨"c2", 0, none, false, none⟩, ⟨"c1", 1, none, false, none⟩]
    (List.Perm.swap _ _ _) (by simp)

/-- `AnalyzedComment` of `types.ts` as assembled by the `/api/analyze` route:
the comment spread together with the analysis fields the route copies. -/
structure AnalyzedComment where
  comment : Comment
  sentiment : ℚ
  weightedScore : ℚ
  emotions : List String
  isSarcasm : Bool
  isRepeatUser : Bool
  label : Option StanceLabel
  confidence : Option ℚ
  axisEvidence : Option String
  replyRelation : Option String
  deriving DecidableEq, Repr

/-- The per-batch result join of the `/api/analyze` route (part of `POST`):
`for (j...) { const analysis = result.analyses[j]; if (!analysis) continue;
analyzedComments.push({...comment, sentiment: analysis.score, ...}) }` —
a positional zip of the batch with the analyses array, dropping positions
beyond the shorter list. -/
def routeJoinBatch (batch : List Comment) (analyses : List SentimentAnalysis) :
    List AnalyzedComment :=
  (batch.zip analyses).map fun pr =>
    { comment := pr.1
      sentiment := pr.2.score
      weightedScore := pr.2.weightedScore
      emotions := pr.2.emotions
      isSarcasm := pr.2.isSarcasm
      isRepeatUser := false
      label := pr.2.label
      confidence := pr.2.confidence
      axisEvidence := pr.2.axisEvidence
      replyRelation := pr.2.replyRelation }

/-- C7, counterexample.  On the OpenAI path the claim fails:
`OpenAIEngine.analyzeBatch` emits one analysis per provider entry *in the
provider's order*, and the route pairs `batch[j]` with `analyses[j]` by
position, so permuting the provider's two-entry response flips which
sentiment lands on comment `"c1"` (`1` vs `-1`). -/
theorem order_independence_counterexample :
    (routeJoinBatch [⟨"c1", 0, none⟩, ⟨"c2", 0, none⟩]
          (openAIAnalyzeBatchMap (fun _ => 0) false
            [⟨"c1", 0, none⟩, ⟨"c2", 0, none⟩]
            [⟨"c1", 1, [], false, "a"⟩, ⟨"c2", -1, [], false, "b"⟩])).map
        (fun ac => (ac.comment.id, ac.sentiment)) = [("c1", 1), ("c2", -1)] ∧
      (routeJoinBatch [⟨"c1", 0, none⟩, ⟨"c2", 0, none⟩]
            (openAIAnalyzeBatchMap (fun _ => 0) false
              [⟨"c1", 0, none⟩, ⟨"c2", 0, none⟩]
              [⟨"c2", -1, [], false, "b"⟩, ⟨"c1", 1, [], false, "a"⟩])).map
          (fun ac => (ac.comment.id, ac.sentiment)) = [("c1", -1), ("c2", 1)] ∧
      ((1 : ℚ) ≠ -1) := by
  refine ⟨?_, ?_, by norm_num⟩ <;>
    simp [routeJoinBatch, openAIAnalyzeBatchMap, lookupLast,
      openAICalculateWeightedScore]

/-! ## Failure semantics -/

/-- `AnalysisError` of `types.ts`: message and machine-readable code (the
wrapped cause is not modelled). -/
structure AnalysisError where
  message : String
  code : String
  deriving DecidableEq, Repr

/-- `BatchAnalysisResponse` of `types.ts` (without the wall-clock
`processingTimeMs`).  A missing `isPartial` is falsy, modelled as `false`. -/
structure BatchResponse where
  analyses : List SentimentAnalysis
  tokensUsed : ℕ
  isPartial : Bool
  deriving DecidableEq, Repr

/-- Substring test on character lists, used to model JS
`String.prototype.includes`. -/
def charsInclude (sub s : List Char) : Bool :=
  (List.range (s.length + 1)).any fun i => sub.isPrefixOf (s.drop i)

/-- JS `s.includes(sub)`. -/
def strIncludes (s sub : String) : Bool :=
  charsInclude sub.toList s.toList

/-- The error value the Groq engine's catch handler inspects: HTTP status (if
any) and message.  The `json_validate_failed` recovery branch of the source
only fires when the error carries a `failed_generation` payload and then
re-enters the parse pipeline; quota, timeout and network errors carry no
such payload, so this embedding models the catch handler on the
payload-free error domain. -/
structure JsError where
  status : Option ℕ
  message : String
  deriving DecidableEq, Repr

/-- The quota-error test of `GroqEngine.analyzeBatch`/`analyzeAxisBatch`:
status 429 or 413, or a message mentioning `429`, `413`, `quota` or
`rate_limit_exceeded`. -/
def isQuotaError (e : JsError) : Bool :=
  e.status = some 429 || e.status = some 413 ||
    strIncludes e.message "429" || strIncludes e.message "413" ||
    strIncludes e.message "quota" || strIncludes e.message "rate_limit_exceeded"

/-- The neutral/unknown placeholder built by `GroqEngine.analyzeAxisBatch`
when the quota is exceeded, one per requested comment. -/
def groqAxisQuotaPlaceholder (c : Comment) : SentimentAnalysis where
  commentId := c.id
  score := 0
  weightedScore := 0
  emotions := ["neutral"]
  isSarcasm := false
  reason := some "Analysis skipped due to Groq API limits."
  label := some .unknown
  stanceDirection := none
  stanceIntensity := none
  confidence := some 0
  axisEvidence := some "API quota exceeded"
  replyRelation := none
  speechAct := none

/-- The catch handler of `GroqEngine.analyzeAxisBatch` (payload-free error
domain): a quota-class error returns an `isPartial` response mapping every
requested comment to the placeholder; any other error (timeout, network,
parse failure) is rethrown as an `AnalysisError` with code
`GROQ_AXIS_BATCH_ERROR`. -/
def groqAxisBatchCatch (comments : List Comment) (e : JsError) :
    Except AnalysisError BatchResponse :=
  if isQuotaError e then
    .ok { analyses := comments.map groqAxisQuotaPlaceholder
          tokensUsed := 0
          isPartial := true }
  else
    .error { message := "Failed to analyze axis batch with Groq: " ++ e.message
             code := "GROQ_AXIS_BATCH_ERROR" }

/-- The result-merging loop of the concurrent `/api/analyze` route: each
batch outcome is either a response or `none` (the per-batch `try/catch`
caught a throw).  Failed batches are skipped (`continue`) — their comments
are dropped and the partial flag is left untouched; successful batches are
positionally joined and or-accumulate their `isPartial` flag. -/
def routeMergeBatches (outcomes : List (List Comment × Option BatchResponse)) :
    List AnalyzedComment × Bool :=
  outcomes.foldl
    (fun acc outcome =>
      match outcome.2 with
      | none => acc
      | some r => (acc.1 ++ routeJoinBatch outcome.1 r.analyses, acc.2 || r.isPartial))
    ([], false)

/-- C2, counterexample.  The claim covers timeouts and unrecoverable parse
failures, but the Groq engine's catch handler only degrades *quota-class*
errors to an `isPartial` placeholder response: a timeout (status 500,
message without a quota marker) is rethrown as `GROQ_AXIS_BATCH_ERROR`
instead of producing a placeholder response. -/
theorem failure_semantics_counterexample :
    groqAxisBatchCatch [⟨"c1", 0, none⟩] ⟨some 500, "Request timed out"⟩ =
      .error ⟨"Failed to analyze axis batch with Groq: Request timed out",
        "GROQ_AXIS_BATCH_ERROR"⟩ := by
  rfl

/-- C2, amended.  Quota-class failures (status 429/413 or a quota-marked
message) do return `isPartial = true` with every comment mapped to the
neutral/unknown placeholder carrying the reason string; every other failure
is rethrown as an `AnalysisError` (never an `ok` response).  The route's
per-batch `try/catch` contains the throw — sibling batches in the merged
result are exactly what they would be without the failed batch — but the
failed batch's comments are dropped and the merged `isPartial` flag is not
set by the failure (it only propagates engine-returned `isPartial`
responses). -/
theorem failure_semantics_amended :
    (∀ (comments : List Comment) (e : JsError), isQuotaError e = true →
      groqAxisBatchCatch comments e =
        .ok { analyses := comments.map groqAxisQuotaPlaceholder
              tokensUsed := 0
              isPartial := true }) ∧
      (∀ (comments : List Comment) (e : JsError), isQuotaError e = false →
        ∀ resp : BatchResponse, groqAxisBatchCatch comments e ≠ .ok resp) ∧
      (∀ (xs ys : List (List Comment × Option BatchResponse))
          (batch : List Comment),
        routeMergeBatches (xs ++ (batch, none) :: ys) =
          routeMergeBatches (xs ++ ys)) := by
  refine ⟨fun comments e he => ?_, fun comments e he resp => ?_, fun xs ys batch => ?_⟩
  · simp [groqAxisBatchCatch, he]
  · simp [groqAxisBatchCatch, he]
  · unfold routeMergeBatches
    rw [List.foldl_append, List.foldl_append, List.foldl_cons]

/-- Witness for `failure_semantics_amended` at a concrete quota error, a
concrete timeout, and a concrete failed middle batch. -/
theorem failure_semantics_amended_witness :
    (groqAxisBatchCatch [⟨"c1", 3, none⟩] ⟨some 429, "quota"⟩ =
        .ok { analyses := [⟨"c1", 3, none⟩].map groqAxisQuotaPlaceholder
              tokensUsed := 0
              isPartial := true }) ∧
      (groqAxisBatchCatch [⟨"c1", 3, none⟩] ⟨some 500, "boom"⟩ ≠
        .ok { analyses := [], tokensUsed := 0, isPartial := false }) ∧
      (routeMergeBatches ([] ++ ([⟨"c1", 3, none⟩], none) :: []) =
        routeMergeBatches ([] ++ [])) :=
  ⟨failure_semantics_amended.1 [⟨"c1", 3, none⟩] ⟨some 429, "quota"⟩ (by decide),
    failure_semantics_amended.2.1 [⟨"c1", 3, none⟩] ⟨some 500, "boom"⟩ (by decide)
      { analyses := [], tokensUsed := 0, isPartial := false },
    failure_semantics_amended.2.2 [] [] [⟨"c1", 3, none⟩]⟩

/-! ## Batch partitioning and tier assignment (`/api/analyze` route) -/

/-- Fuel-driven chunking (the fuel is the list length at the top call). -/
def makeBatchesAux : ℕ → ℕ → List Comment → List (List Comment)
  | 0, _, _ => []
  | _, _, [] => []
  | fuel + 1, batchSize, l => l.take batchSize :: makeBatchesAux fuel batchSize (l.drop batchSize)

/-- The batching loop of the route:
`for (i = 0; i < comments.length; i += batchSize) batches.push(comments.slice(i, i + batchSize))`. -/
def makeBatches (batchSize : ℕ) (l : List Comment) : List (List Comment) :=
  makeBatchesAux l.length batchSize l

theorem makeBatchesAux_join (fuel batchSize : ℕ) (hbs : 0 < batchSize) :
    ∀ l : List Comment, l.length ≤ fuel → (makeBatchesAux fuel batchSize l).flatten = l := by
  induction fuel with
  | zero =>
    intro l hl
    rw [Nat.le_zero, List.length_eq_zero] at hl
    subst hl
    rfl
  | succ n ih =>
    intro l hl
    cases l with
    | nil => rfl
    | cons x xs =>
      show ((x :: xs).take batchSize :: _).flatten = x :: xs
      rw [List.flatten_cons, ih ((x :: xs).drop batchSize) ?_, List.take_append_drop]
      have : ((x :: xs).drop batchSize).length = (x :: xs).length - batchSize := by
        rw [List.length_drop]
      rw [this]
      have hlen : (x :: xs).length ≤ n + 1 := hl
      omega

/-- The route's batches are exactly the input comment list, partitioned in
order. -/
theorem makeBatches_join (batchSize : ℕ) (hbs : 0 < batchSize) (l : List Comment) :
    (makeBatches batchSize l).flatten = l :=
  makeBatchesAux_join l.length batchSize hbs l le_rfl

/-- The tier assignment of the route: batch `b` starts at global index
`b * batchSize` and is lite iff that start is at or past
`richTierThreshold` (`const isLiteBatch = globalIndex >= richTierThreshold`). -/
def batchIsLite (batchSize richTier b : ℕ) : Bool :=
  richTier ≤ b * batchSize

/-- Tier of the comment at sorted position `p`: it lies in batch
`p / batchSize` (the route slices `[i, i + batchSize)` in order, see
`makeBatches_join`). -/
def positionIsLite (batchSize richTier p : ℕ) : Bool :=
  batchIsLite batchSize richTier (p / batchSize)

/-- C9.  With `richTierThreshold = 200`, 250 comments (already sorted by
descending likeCount) and the engines' configured batch sizes (20 for Groq,
50 for OpenAI/Gemini/AnalysisService — both divide 200), the comments at
sorted positions 0–199 are processed rich and those at 200–249 lite; the
batches partition the sorted list in order (`makeBatches_join`). -/
theorem tiering_rich_lite (batchSize : ℕ) (hbs : batchSize = 20 ∨ batchSize = 50)
    (p : ℕ) (hp : p < 250) :
    (p < 200 → positionIsLite batchSize 200 p = false) ∧
      (200 ≤ p → positionIsLite batchSize 200 p = true) ∧
      (∀ l : List Comment, (makeBatches batchSize l).flatten = l) := by
  refine ⟨fun h => ?_, fun h => ?_, fun l => makeBatches_join batchSize (by omega) l⟩
  · simp only [positionIsLite, batchIsLite, decide_eq_false_iff_not, not_le]
    rcases hbs with rfl | rfl <;> omega
  · simp only [positionIsLite, batchIsLite, decide_eq_true_eq]
    rcases hbs with rfl | rfl <;> omega

/-- Witness for `tiering_rich_lite`: with batch size 50, position 205 is
lite. -/
theorem tiering_rich_lite_witness :
    positionIsLite 50 200 205 = true :=
  (tiering_rich_lite 50 (Or.inr rfl) 205 (by norm_num)).2.1 (by norm_num)

/-! ## JSON truncation repair (`OpenAIEngine.repairTruncatedJSON`)

Strings are handled as `List Char`.  The opening and closing brace
characters are written with hex escapes throughout this section. -/

/-- The whitespace class used for `trim` and the repair regexes (the ASCII
part of JS `\s`; no non-ASCII whitespace occurs in the inputs considered). -/
def jsWhitespace (c : Char) : Bool :=
  c = ' ' || c = '\t' || c = '\n' || c = '\r' || c = '\x0b' || c = '\x0c'

/-- JS `String.prototype.trim`. -/
def jsTrim (s : List Char) : List Char :=
  ((s.dropWhile jsWhitespace).reverse.dropWhile jsWhitespace).reverse

/-- `repaired.replace(/,\s*$/, "")`: if the string ends in a comma followed
only by whitespace, remove the comma and that whitespace; otherwise leave
the string unchanged. -/
def dropTrailingCommaWs (s : List Char) : List Char :=
  match s.reverse.dropWhile jsWhitespace with
  | ',' :: rest => rest.reverse
  | _ => s

/-- The state of the character scan of `repairTruncatedJSON`: the bracket
stack (head = innermost open bracket; the JS array-with-push/pop is
equivalent), the in-string flag and the escape flag. -/
structure ScanState where
  stack : List Char
  inString : Bool
  escaped : Bool
  deriving DecidableEq, Repr

/-- One character step of the scan loop: an escaped character is skipped, a
backslash sets the escape flag, a quote toggles the string state, and
outside strings brackets are pushed/popped (a closer only pops a matching
opener). -/
def scanStep (st : ScanState) (c : Char) : ScanState :=
  if st.escaped then { st with escaped := false }
  else if c = '\\' then { st with escaped := true }
  else if c = '"' then { st with inString := !st.inString }
  else if st.inString then st
  else if c = '\x7b' || c = '[' then { st with stack := c :: st.stack }
  else if c = '\x7d' then
    match st.stack with
    | '\x7b' :: rest => { st with stack := rest }
    | _ => st
  else if c = ']' then
    match st.stack with
    | '[' :: rest => { st with stack := rest }
    | _ => st
  else st

/-- The closer appended for one still-open bracket (the JS `while` pops the
most recent first, which is the head here). -/
def closerFor (c : Char) : List Char :=
  if c = '\x7b' then ['\x7d'] else if c = '[' then [']'] else []

/-- Whether a suffix matches the anchored tail of the dangling-pair regex
`,\s*"[^"]*"\s*:\s*[^,\]\x7d]*$`: a comma, optional whitespace, a quoted
key, optional whitespace, a colon, then any characters other than comma and
closing brackets up to the end. -/
def matchesDanglingPair (s : List Char) : Bool :=
  match s with
  | ',' :: rest =>
    match rest.dropWhile jsWhitespace with
    | '"' :: rest2 =>
      let key := rest2.takeWhile (fun c => c ≠ '"')
      match rest2.drop key.length with
      | '"' :: rest3 =>
        match rest3.dropWhile jsWhitespace with
        | ':' :: rest5 => rest5.all fun c => c ≠ ',' && c ≠ ']' && c ≠ '\x7d'
        | _ => false
      | _ => false
    | _ => false
  | _ => false

/-- Whether a suffix matches the anchored tail of the dangling-key regex
`,\s*"[^"]*"\s*$`. -/
def matchesDanglingKey (s : List Char) : Bool :=
  match s with
  | ',' :: rest =>
    match rest.dropWhile jsWhitespace with
    | '"' :: rest2 =>
      let key := rest2.takeWhile (fun c => c ≠ '"')
      match rest2.drop key.length with
      | '"' :: rest3 => rest3.all jsWhitespace
      | _ => false
    | _ => false
  | _ => false

/-- JS `s.replace(re, "")` for an end-anchored regex: the replaced match
starts at the leftmost position whose suffix matches, and extends to the end
of the string; no match leaves the string unchanged. -/
def replaceEndMatch (m : List Char → Bool) (s : List Char) : List Char :=
  match (List.range s.length).find? (fun i => m (s.drop i)) with
  | some i => s.take i
  | none => s

/-- `OpenAIEngine.repairTruncatedJSON`: trim; drop a trailing comma; scan the
bracket stack and string state; close an open string; drop a dangling
incomplete trailing key-value pair, then a dangling trailing key; close all
still-open brackets in LIFO order. -/
def repairTruncatedJSON (json : List Char) : List Char :=
  let repaired := jsTrim json
  let repaired := dropTrailingCommaWs repaired
  let st := repaired.foldl scanStep ⟨[], false, false⟩
  let repaired := if st.inString then repaired ++ ['"'] else repaired
  let repaired := replaceEndMatch matchesDanglingPair repaired
  let repaired := replaceEndMatch matchesDanglingKey repaired
  repaired ++ st.stack.flatMap closerFor

/-- JSON values.  A numeral is kept as its decimal representation
`mantissa × 10⁻ˢᶜᵃˡᵉ` (sign on the mantissa), so that parsing stays in
integer arithmetic. -/
inductive Json where
  | null
  | bool (b : Bool)
  | num (mantissa : ℤ) (scale : ℕ)
  | str (s : String)
  | arr (elems : List Json)
  | obj (members : List (String × Json))

/-- String-literal body parser (after the opening quote); escape sequences
are accepted but kept verbatim (none occur in the inputs considered). -/
def parseStringAux : List Char → List Char → Option (List Char × List Char)
  | _, [] => none
  | acc, '"' :: rest => some (acc.reverse, rest)
  | _, ['\\'] => none
  | acc, '\\' :: c :: rest => parseStringAux (c :: acc) rest
  | acc, c :: rest => parseStringAux (c :: acc) rest

/-- Decimal digits to a natural number. -/
def digitsToNat (l : List Char) : ℕ :=
  l.foldl (fun n c => 10 * n + (c.toNat - '0'.toNat)) 0

/-- JSON numeral parser (integer and fraction parts; exponents are not
needed for the inputs considered). -/
def parseNumberAux (neg : Bool) (t : List Char) : Option (Json × List Char) :=
  let intDigits := t.takeWhile Char.isDigit
  if intDigits.isEmpty then none
  else
    match t.drop intDigits.length with
    | '.' :: rest =>
      let fracDigits := rest.takeWhile Char.isDigit
      if fracDigits.isEmpty then none
      else
        let mantissa : ℤ := digitsToNat (intDigits ++ fracDigits)
        some (.num (if neg then -mantissa else mantissa) fracDigits.length,
          rest.drop fracDigits.length)
    | t2 =>
      let mantissa : ℤ := digitsToNat intDigits
      some (.num (if neg then -mantissa else mantissa) 0, t2)

def parseNumber : List Char → Option (Json × List Char)
  | '-' :: rest => parseNumberAux true rest
  | s => parseNumberAux false s

mutual

/-- Fuel-driven JSON value parser (a subset grammar: success implies the
input is valid JSON). -/
def parseValue : ℕ → List Char → Option (Json × List Char)
  | 0, _ => none
  | fuel + 1, s =>
    match s.dropWhile jsWhitespace with
    | '\x7b' :: rest => parseMembers fuel rest []
    | '[' :: rest => parseElements fuel rest []
    | '"' :: rest =>
      (parseStringAux [] rest).map fun pr => (.str (String.mk pr.1), pr.2)
    | 't' :: 'r' :: 'u' :: 'e' :: rest => some (.bool true, rest)
    | 'f' :: 'a' :: 'l' :: 's' :: 'e' :: rest => some (.bool false, rest)
    | 'n' :: 'u' :: 'l' :: 'l' :: rest => some (.null, rest)
    | rest => parseNumber rest

/-- Object members (after the opening brace). -/
def parseMembers : ℕ → List Char → List (String × Json) → Option (Json × List Char)
  | 0, _, _ => none
  | fuel + 1, s, acc =>
    match s.dropWhile jsWhitespace with
    | '\x7d' :: rest => if acc.isEmpty then some (.obj [], rest) else none
    | '"' :: rest =>
      match parseStringAux [] rest with
      | none => none
      | some (key, r1) =>
        match r1.dropWhile jsWhitespace with
        | ':' :: r2 =>
          match parseValue fuel r2 with
          | none => none
          | some (v, r3) =>
            match r3.dropWhile jsWhitespace with
            | ',' :: r4 => parseMembers fuel r4 (acc ++ [(String.mk key, v)])
            | '\x7d' :: r4 => some (.obj (acc ++ [(String.mk key, v)]), r4)
            | _ => none
        | _ => none
    | _ => none

/-- Array elements (after the opening bracket). -/
def parseElements : ℕ → List Char → List Json → Option (Json × List Char)
  | 0, _, _ => none
  | fuel + 1, s, acc =>
    match s.dropWhile jsWhitespace with
    | ']' :: rest => if acc.isEmpty then some (.arr [], rest) else none
    | _ =>
      match parseValue fuel s with
      | none => none
      | some (v, r1) =>
        match r1.dropWhile jsWhitespace with
        | ',' :: r2 => parseElements fuel r2 (acc ++ [v])
        | ']' :: r2 => some (.arr (acc ++ [v]), r2)
        | _ => none

end

/-- Top-level JSON parse: one value followed only by whitespace. -/
def jsonParse (s : List Char) : Option Json :=
  match parseValue (s.length + 1) s with
  | some (j, rest) => if (rest.dropWhile jsWhitespace).isEmpty then some j else none
  | none => none

/-- The truncated provider reply of the spec's truncation-repair property. -/
def truncatedInput : String :=
  "\x7b\"comments\": [\x7b\"commentId\": \"c1\", \"score\": 0.5\x7d, \x7b\"commentId\": \"c2\", \"sc"

/-- The repair of `truncatedInput` expected from the source algorithm. -/
def expectedRepair : String :=
  "\x7b\"comments\": [\x7b\"commentId\": \"c1\", \"score\": 0.5\x7d, \x7b\"commentId\": \"c2\"\x7d]\x7d"

/-- The comments array of the repaired document. -/
def repairedComments : List Json :=
  [Json.obj [("commentId", Json.str "c1"), ("score", Json.num 5 1)],
    Json.obj [("commentId", Json.str "c2")]]

set_option maxRecDepth 40000 in
/-- C8.  Running `repairTruncatedJSON` on the truncated input closes the open
string, drops the dangling trailing key, and closes the three open brackets
in LIFO order; the result parses as JSON whose `comments` array still holds
the first complete element `commentId = "c1"`, `score = 0.5`. -/
theorem truncation_repair_valid :
    repairTruncatedJSON truncatedInput.toList = expectedRepair.toList ∧
      jsonParse (repairTruncatedJSON truncatedInput.toList) =
        some (Json.obj [("comments", Json.arr repairedComments)]) ∧
      Json.obj [("commentId", Json.str "c1"), ("score", Json.num 5 1)] ∈
        repairedComments :=
  ⟨rfl, rfl, List.mem_cons_self _ _⟩

end CommentRadar
